import Mathlib

/-!
# Verification of the paso-chan networking core (`src/network_api.c`)

This file is a shallow embedding, in Lean 4, of the connection-supervision
core of the paso-chan repository: the WiFi event handler, the TCP connect
and handshake routine, one iteration of the worker task `network_task`
(inbound framing, outbound draining), and the public API functions
`network_send_message`, `network_start`, `network_stop`.

Modelling conventions:
* C strings are modelled as the list of their bytes strictly before the
  terminating NUL; such a list never contains the byte `0`.
* Bytes are `Nat` (each in `0..255`; the embedding never needs the bound).
* The global `g_network_ctx` singleton becomes an explicit
  `network_context` record threaded through every operation.
* Calls into the OS / RTOS (socket creation, `connect`, `send`, `recv`,
  `select`, queue primitives) are resolved by explicit environment values
  describing the outcome the OS reported; the bytes handed to `send` are
  collected in a `writes` list, the callback invocations in a
  `deliveries` list.
* Constants are the ones of `network_api.h` (embedded in the sources):
  `NETWORK_MAX_MESSAGE_LEN = 512`, `NETWORK_QUEUE_SIZE = 10`,
  `WIFI_MAX_RETRY_COUNT = 5`.
-/

/-- `NETWORK_MAX_MESSAGE_LEN` from `network_api.h`. -/
def NETWORK_MAX_MESSAGE_LEN : Nat := 512

/-- `NETWORK_QUEUE_SIZE` from `network_api.c`: tx queue capacity. -/
def NETWORK_QUEUE_SIZE : Nat := 10

/-- `WIFI_MAX_RETRY_COUNT` from `network_api.c`: WiFi retry bound. -/
def WIFI_MAX_RETRY_COUNT : Nat := 5

/-- `network_state_t` from `network_api.h`. -/
inductive network_state_t where
  | NETWORK_STATE_DISCONNECTED
  | NETWORK_STATE_WIFI_CONNECTED
  | NETWORK_STATE_SERVER_CONNECTED
  | NETWORK_STATE_ERROR
  deriving DecidableEq, Repr

/-- `network_error_t` from `network_api.h`. -/
inductive network_error_t where
  | NETWORK_OK
  | NETWORK_ERR_NOT_INITIALIZED
  | NETWORK_ERR_WIFI_FAILED
  | NETWORK_ERR_SERVER_FAILED
  | NETWORK_ERR_SEND_FAILED
  | NETWORK_ERR_INVALID_PARAM
  | NETWORK_ERR_QUEUE_FULL
  | NETWORK_ERR_TIMEOUT
  deriving DecidableEq, Repr

open network_state_t network_error_t

/-- `network_stats_t`: the four monotone counters. -/
structure network_stats_t where
  messages_sent : Nat
  messages_received : Nat
  send_errors : Nat
  reconnect_count : Nat
  deriving DecidableEq, Repr

/--
A queued outbound message (`network_message_t`).  The C struct is a
512-byte array plus a length; only the first `length` bytes are ever
transmitted, and `network_send_message` establishes
`length = strlen(data)`, so the message is modelled as exactly the list
of its meaningful bytes.
-/
abbrev network_message_t := List Nat

/--
`network_context_t` (the fields of `g_network_ctx` the claims touch).
The event-group bits `WIFI_CONNECTED_BIT` / `WIFI_FAIL_BIT` are modelled
as the two booleans `connected_bit` / `fail_bit`.  `device_name` is the
byte list of the configured identity string.
-/
structure network_context_t where
  state : network_state_t
  sock_fd : Int
  running : Bool
  wifi_retry_count : Nat
  fail_bit : Bool
  connected_bit : Bool
  stats : network_stats_t
  tx_queue : List network_message_t
  device_name : List Nat
  deriving DecidableEq, Repr

/-- Byte list of an ASCII string literal. -/
def strBytes (s : String) : List Nat := s.toList.map Char.toNat

/-- `set_state`: mutex-guarded store of the connection state. -/
def set_state (ctx : network_context_t) (s : network_state_t) : network_context_t :=
  { ctx with state := s }

/-- `close_socket`: shutdown/close and invalidate the descriptor. -/
def close_socket (ctx : network_context_t) : network_context_t :=
  if ctx.sock_fd ≥ 0 then { ctx with sock_fd := -1 } else ctx

/-!
## Inbound framer

`network_task` NUL-terminates the received chunk and repeatedly runs
`strchr(line_start, '\n')`.  `rx_scan` reproduces that loop byte by byte:
`acc` holds the bytes of the current line read so far (reversed);
hitting a NUL byte ends the scan exactly as `strchr` does; hitting `'\n'`
delivers `acc` — unless it is empty, which the `msg_len > 0` guard
discards — and bumps `messages_received`; the end of the chunk drops the
unterminated remainder, just as the loop exits leaving `line_start`
behind.
-/

/-- The framing loop of `network_task`, lines 343–366: returns the
callback deliveries and the updated stats. -/
def rx_scan (stats : network_stats_t) (acc : List Nat) :
    List Nat → List (List Nat) × network_stats_t
  | [] => ([], stats)
  | b :: rest =>
    if b = 0 then ([], stats)
    else if b = 10 then
      if acc = [] then rx_scan stats [] rest
      else
        let r := rx_scan
          { stats with messages_received := stats.messages_received + 1 } [] rest
        (acc.reverse :: r.1, r.2)
    else rx_scan stats (b :: acc) rest

/-- Pure view of the framer: the list of messages it delivers. -/
def frame (acc : List Nat) : List Nat → List (List Nat)
  | [] => []
  | b :: rest =>
    if b = 0 then []
    else if b = 10 then
      if acc = [] then frame [] rest else acc.reverse :: frame [] rest
    else frame (b :: acc) rest

/-- Messages delivered for one received chunk. -/
def frameChunk (chunk : List Nat) : List (List Nat) := frame [] chunk

/-- Reference splitter: the complete (possibly empty) lines of a chunk,
i.e. the segments strictly between delimiters, the unterminated tail
dropped.  Used to state what "all bytes since the previous delimiter"
means, independently of the NUL-scanning loop. -/
def splitNl (acc : List Nat) : List Nat → List (List Nat)
  | [] => []
  | b :: rest =>
    if b = 10 then acc.reverse :: splitNl [] rest
    else splitNl (b :: acc) rest

theorem rx_scan_fst (stats : network_stats_t) (acc chunk : List Nat) :
    (rx_scan stats acc chunk).1 = frame acc chunk := by
  induction chunk generalizing stats acc with
  | nil => rfl
  | cons b rest ih =>
    simp only [rx_scan, frame]
    by_cases hb0 : b = 0
    · simp [hb0]
    · by_cases hb10 : b = 10
      · by_cases hacc : acc = [] <;> simp [hb0, hb10, hacc, ih]
      · simp [hb0, hb10, ih]

theorem rx_scan_received (stats : network_stats_t) (acc chunk : List Nat) :
    (rx_scan stats acc chunk).2.messages_received =
      stats.messages_received + (frame acc chunk).length := by
  induction chunk generalizing stats acc with
  | nil => rfl
  | cons b rest ih =>
    simp only [rx_scan, frame]
    by_cases hb0 : b = 0
    · simp [hb0]
    · by_cases hb10 : b = 10
      · by_cases hacc : acc = [] <;>
          simp [hb0, hb10, hacc, ih, Nat.add_assoc, Nat.add_comm 1]
      · simp [hb0, hb10, ih]

theorem rx_scan_other_stats (stats : network_stats_t) (acc chunk : List Nat) :
    (rx_scan stats acc chunk).2.messages_sent = stats.messages_sent ∧
    (rx_scan stats acc chunk).2.send_errors = stats.send_errors ∧
    (rx_scan stats acc chunk).2.reconnect_count = stats.reconnect_count := by
  induction chunk generalizing stats acc with
  | nil => exact ⟨rfl, rfl, rfl⟩
  | cons b rest ih =>
    simp only [rx_scan]
    by_cases hb0 : b = 0
    · simp [hb0]
    · by_cases hb10 : b = 10
      · by_cases hacc : acc = [] <;> simp [hb0, hb10, hacc, ih]
      · simp [hb0, hb10, ih]

/-- On a NUL-free chunk the framer delivers exactly the nonempty complete
lines, in order. -/
theorem frame_eq_splitNl (chunk : List Nat) (acc : List Nat)
    (h : 0 ∉ chunk) :
    frame acc chunk = (splitNl acc chunk).filter (fun s => s ≠ []) := by
  induction chunk generalizing acc with
  | nil => rfl
  | cons b rest ih =>
    have hb0 : b ≠ 0 := fun hb => h (hb ▸ List.mem_cons_self b rest)
    have hrest : 0 ∉ rest := fun hr => h (List.mem_cons_of_mem b hr)
    simp only [frame, splitNl, hb0, if_neg hb0]
    by_cases hb10 : b = 10
    · by_cases hacc : acc = []
      · subst hacc
        simp [hb10, ih _ hrest, List.filter]
      · have : acc.reverse ≠ [] := by simpa using hacc
        simp [hb10, hacc, ih _ hrest, List.filter, this]
    · simp [hb10, ih _ hrest]

/-!
## Link Manager: `wifi_event_handler`
-/

/-- The WiFi / IP events the handler reacts to. -/
inductive wifi_event where
  | sta_start
  | sta_disconnected
  | got_ip
  deriving DecidableEq, Repr

/--
`wifi_event_handler`, lines 111–135.  The returned boolean records
whether the handler called `esp_wifi_connect()` (a reconnection
attempt).
-/
def wifi_event_handler (ctx : network_context_t) :
    wifi_event → network_context_t × Bool
  | .sta_start => (ctx, true)
  | .sta_disconnected =>
    if ctx.wifi_retry_count < WIFI_MAX_RETRY_COUNT then
      (set_state { ctx with wifi_retry_count := ctx.wifi_retry_count + 1 }
        NETWORK_STATE_DISCONNECTED, true)
    else
      (set_state { ctx with fail_bit := true } NETWORK_STATE_DISCONNECTED, false)
  | .got_ip =>
    (set_state { ctx with wifi_retry_count := 0, connected_bit := true }
      NETWORK_STATE_WIFI_CONNECTED, false)

/-- Deliver `n` consecutive `STA_DISCONNECTED` events; returns the final
context and how many reconnection attempts were initiated. -/
def run_disconnects (ctx : network_context_t) : Nat → network_context_t × Nat
  | 0 => (ctx, 0)
  | n + 1 =>
    let s := wifi_event_handler ctx .sta_disconnected
    let r := run_disconnects s.1 n
    (r.1, (if s.2 then 1 else 0) + r.2)

/-!
## Transport Session: `connect_to_server`
-/

/-- Outcomes of the OS calls inside `connect_to_server`: whether
`socket()` succeeds and with which descriptor, whether `inet_pton`
accepts the address, whether `connect()` succeeds. -/
structure connect_env where
  sock_ok : Bool
  new_fd : Nat
  pton_ok : Bool
  conn_ok : Bool
  deriving DecidableEq, Repr

/-- The tag of the identification line. -/
def deviceTag : List Nat := strBytes "DEVICE:"

/-- The `hello_msg` buffer built by `snprintf(hello_msg, 128,
"DEVICE:%s\n", device_name)`: the formatted line truncated to 127
bytes (space for the terminating NUL). -/
def hello_msg (name : List Nat) : List Nat :=
  (deviceTag ++ name ++ [10]).take 127

/--
`connect_to_server`, lines 224–266.  Returns the error code, the
updated context and the byte strings handed to `send` (the handshake,
when it is reached).  `send` transmits `strlen(hello_msg)` bytes, i.e.
the buffer up to its first NUL.
-/
def connect_to_server (ctx : network_context_t) (e : connect_env) :
    network_error_t × network_context_t × List (List Nat) :=
  if ¬ e.sock_ok then
    (NETWORK_ERR_SERVER_FAILED, { ctx with sock_fd := -1 }, [])
  else
    let ctx1 : network_context_t := { ctx with sock_fd := (e.new_fd : Int) }
    if ¬ e.pton_ok then
      (NETWORK_ERR_SERVER_FAILED, close_socket ctx1, [])
    else if ¬ e.conn_ok then
      (NETWORK_ERR_SERVER_FAILED, close_socket ctx1, [])
    else
      (NETWORK_OK, set_state ctx1 NETWORK_STATE_SERVER_CONNECTED,
        [(hello_msg ctx.device_name).takeWhile (fun b => b ≠ 0)])

/-!
## Worker loop: one iteration of `network_task`
-/

/-- What `recv` reported: peer close, an error, or `len > 0` bytes. -/
inductive recv_result where
  | closed
  | rerror
  | bytes (chunk : List Nat)
  deriving DecidableEq, Repr

/-- What `select` reported. -/
inductive select_result where
  | timeout
  | readable (r : recv_result)
  deriving DecidableEq, Repr

/-- Environment of one loop iteration: the `select`/`recv` outcome, the
OS outcomes for a connection attempt, and whether `send` of a dequeued
message succeeds. -/
structure task_env where
  sel : select_result
  conn : connect_env
  send_ok : Bool
  deriving DecidableEq, Repr

/-- Result of one iteration: the new context, callback deliveries, byte
strings passed to `send`, whether a server connection was attempted, and
whether the iteration slept for `reconnect_interval_ms`. -/
structure iter_result where
  ctx : network_context_t
  deliveries : List (List Nat)
  writes : List (List Nat)
  attempted_connect : Bool
  slept : Bool
  deriving DecidableEq, Repr

/-- The per-message newline fix-up of the send path, lines 384–390:
append `'\n'` when the last byte is not one and the buffer has room. -/
def tx_bytes (m : network_message_t) : network_message_t :=
  if m.getLastD 0 ≠ 10 then
    if m.length < NETWORK_MAX_MESSAGE_LEN - 1 then m ++ [10] else m
  else m

/-- The transmit half of the loop body, lines 382–403: dequeue at most
one message, fix its terminator, `send` it. -/
def tx_step (ctx : network_context_t) (env : task_env)
    (dels : List (List Nat)) : iter_result :=
  match ctx.tx_queue with
  | [] => ⟨ctx, dels, [], false, false⟩
  | m :: rest =>
    let out := tx_bytes m
    if env.send_ok then
      (⟨{ ctx with
            tx_queue := rest
            stats := { ctx.stats with
              messages_sent := ctx.stats.messages_sent + 1 } },
        dels, [out], false, false⟩)
    else
      (⟨set_state
          (close_socket { ctx with
            tx_queue := rest
            stats := { ctx.stats with
              send_errors := ctx.stats.send_errors + 1 } })
          NETWORK_STATE_WIFI_CONNECTED,
        dels, [out], false, false⟩)

/--
One iteration of the `while (running)` loop of `network_task`,
lines 312–404.  The reconnect branch attempts `connect_to_server` only
from `WIFI_CONNECTED` and always sleeps; the connected branch handles
the `select` outcome (framing received bytes, or demoting on peer
close / receive error with `continue`) and then drains one queued
message.
-/
def network_task_iter (ctx : network_context_t) (env : task_env) : iter_result :=
  if ctx.state ≠ NETWORK_STATE_SERVER_CONNECTED then
    if ctx.state = NETWORK_STATE_WIFI_CONNECTED then
      match connect_to_server ctx env.conn with
      | (NETWORK_OK, ctx1, ws) =>
        (⟨{ ctx1 with stats := { ctx1.stats with
              reconnect_count := ctx1.stats.reconnect_count + 1 } },
          [], ws, true, true⟩)
      | (_, ctx1, ws) => ⟨ctx1, [], ws, true, true⟩
    else ⟨ctx, [], [], false, true⟩
  else
    match env.sel with
    | .timeout => tx_step ctx env []
    | .readable .closed =>
      ⟨set_state (close_socket ctx) NETWORK_STATE_WIFI_CONNECTED,
        [], [], false, false⟩
    | .readable .rerror =>
      ⟨set_state (close_socket ctx) NETWORK_STATE_WIFI_CONNECTED,
        [], [], false, false⟩
    | .readable (.bytes chunk) =>
      let r := rx_scan ctx.stats [] chunk
      tx_step { ctx with stats := r.2 } env r.1

/-!
## Public API
-/

/--
`network_send_message`, lines 506–528.  The argument is `none` for a
NULL pointer, otherwise the bytes of the caller's string.  After the
length check (`1 ≤ len < 512`) the `strncpy` into the 511-byte-capped
buffer copies the message verbatim, so the queued payload is the
message itself.  `xQueueSend(..., 0)` succeeds iff the queue holds
fewer than `NETWORK_QUEUE_SIZE` items and never blocks.
-/
def network_send_message (message : Option (List Nat))
    (ctx : network_context_t) : network_error_t × network_context_t :=
  match message with
  | none => (NETWORK_ERR_INVALID_PARAM, ctx)
  | some m =>
    if m.length = 0 ∨ NETWORK_MAX_MESSAGE_LEN ≤ m.length then
      (NETWORK_ERR_INVALID_PARAM, ctx)
    else if ctx.tx_queue.length < NETWORK_QUEUE_SIZE then
      (NETWORK_OK, { ctx with tx_queue := ctx.tx_queue ++ [m] })
    else
      (NETWORK_ERR_QUEUE_FULL, ctx)

/--
`network_start`, lines 454–484.  `wifi_ok` is the outcome of
`wifi_init_sta()`, `spawn_ok` of `xTaskCreate`.  The two booleans of the
result record whether a worker task was spawned and whether WiFi
initialization ran.
-/
def network_start (ctx : network_context_t) (wifi_ok spawn_ok : Bool) :
    network_error_t × network_context_t × Bool × Bool :=
  if ctx.running then (NETWORK_OK, ctx, false, false)
  else if ¬ wifi_ok then (NETWORK_ERR_WIFI_FAILED, ctx, false, true)
  else if spawn_ok then (NETWORK_OK, { ctx with running := true }, true, true)
  else (NETWORK_ERR_NOT_INITIALIZED, { ctx with running := false }, false, true)

/-- `network_stop`, lines 486–504: no-op when not running; otherwise
clear the flag and close the socket (the state field is not touched). -/
def network_stop (ctx : network_context_t) : network_error_t × network_context_t :=
  if ¬ ctx.running then (NETWORK_OK, ctx)
  else (NETWORK_OK, close_socket { ctx with running := false })

/-- The context produced by `network_init`, lines 410–452 (the zeroed
global plus the explicit field initialisations). -/
def network_init_ctx (device_name : List Nat) : network_context_t :=
  { state := NETWORK_STATE_DISCONNECTED
    sock_fd := -1
    running := false
    wifi_retry_count := 0
    fail_bit := false
    connected_bit := false
    stats := ⟨0, 0, 0, 0⟩
    tx_queue := []
    device_name := device_name }

/-!
## Helper lemmas
-/

theorem takeWhile_of_zero_free (l : List Nat) (h : 0 ∉ l) :
    l.takeWhile (fun b => b ≠ 0) = l := by
  rw [List.takeWhile_eq_self_iff]
  intro x hx
  have hx0 : x ≠ 0 := fun h0 => h (h0 ▸ hx)
  simp [hx0]

/-- The framer never scans past a NUL byte: everything after the first
NUL of the chunk is invisible to it. -/
theorem frame_append_nul (pre post acc : List Nat) (h : 0 ∉ pre) :
    frame acc (pre ++ 0 :: post) = frame acc pre := by
  induction pre generalizing acc with
  | nil => simp [frame]
  | cons b rest ih =>
    have hb : b ≠ 0 := fun hb => h (hb ▸ List.mem_cons_self b rest)
    have hrest : 0 ∉ rest := fun hr => h (List.mem_cons_of_mem b hr)
    by_cases hb10 : b = 10
    · by_cases hacc : acc = [] <;>
        simp [frame, hb, hb10, hacc, ih _ hrest]
    · simp [frame, hb, hb10, ih _ hrest]

theorem run_disconnects_attempts (n : Nat) (ctx : network_context_t) :
    (run_disconnects ctx n).2 =
      min n (WIFI_MAX_RETRY_COUNT - ctx.wifi_retry_count) := by
  induction n generalizing ctx with
  | zero => simp [run_disconnects]
  | succ n ih =>
    by_cases hr : ctx.wifi_retry_count < WIFI_MAX_RETRY_COUNT
    · simp only [run_disconnects, wifi_event_handler, if_pos hr, set_state, ih]
      simp only [WIFI_MAX_RETRY_COUNT] at *
      simp
      omega
    · simp only [run_disconnects, wifi_event_handler, if_neg hr, set_state, ih]
      simp only [WIFI_MAX_RETRY_COUNT] at *
      simp
      omega

theorem run_disconnects_fail_bit (n : Nat) (ctx : network_context_t) :
    ((run_disconnects ctx n).1.fail_bit = true) ↔
      (ctx.fail_bit = true ∨
        WIFI_MAX_RETRY_COUNT - ctx.wifi_retry_count < n) := by
  induction n generalizing ctx with
  | zero => simp [run_disconnects]
  | succ n ih =>
    by_cases hr : ctx.wifi_retry_count < WIFI_MAX_RETRY_COUNT
    · simp only [run_disconnects, wifi_event_handler, if_pos hr, set_state, ih]
      simp only [WIFI_MAX_RETRY_COUNT] at *
      constructor
      · rintro (hf | hlt)
        · exact Or.inl hf
        · right; omega
      · rintro (hf | hlt)
        · exact Or.inl hf
        · right; omega
    · simp only [run_disconnects, wifi_event_handler, if_neg hr, set_state, ih]
      simp only [WIFI_MAX_RETRY_COUNT] at *
      constructor
      · intro _; right; omega
      · intro _; exact Or.inl trivial

theorem close_socket_fd_neg (x : network_context_t) :
    (close_socket x).sock_fd < 0 := by
  unfold close_socket
  split
  · exact (by decide : (-1 : Int) < 0)
  · rename_i hfd; omega

theorem close_socket_stats (x : network_context_t) :
    (close_socket x).stats = x.stats := by
  unfold close_socket; split <;> rfl

theorem close_socket_state (x : network_context_t) :
    (close_socket x).state = x.state := by
  unfold close_socket; split <;> rfl

theorem close_socket_queue (x : network_context_t) :
    (close_socket x).tx_queue = x.tx_queue := by
  unfold close_socket; split <;> rfl

/-- The invariant of spec §3: a valid descriptor exists iff the state is
`SERVER_CONNECTED`. -/
@[reducible] def socket_state_inv (ctx : network_context_t) : Prop :=
  ctx.sock_fd ≥ 0 ↔ ctx.state = NETWORK_STATE_SERVER_CONNECTED

instance (ctx : network_context_t) : Decidable (socket_state_inv ctx) := by
  unfold socket_state_inv; infer_instance

/-- The "close the socket and demote to `WIFI_CONNECTED`" error path
re-establishes the socket/state invariant. -/
theorem demote_inv (x : network_context_t) :
    socket_state_inv (set_state (close_socket x) NETWORK_STATE_WIFI_CONNECTED) := by
  unfold socket_state_inv set_state
  have hfd := close_socket_fd_neg x
  refine iff_of_false ?_ ?_
  · show ¬ (close_socket x).sock_fd ≥ 0
    omega
  · show ¬ NETWORK_STATE_WIFI_CONNECTED = NETWORK_STATE_SERVER_CONNECTED
    decide

theorem tx_step_deliveries (ctx : network_context_t) (env : task_env)
    (dels : List (List Nat)) : (tx_step ctx env dels).deliveries = dels := by
  cases hq : ctx.tx_queue with
  | nil => simp [tx_step, hq]
  | cons m rest =>
    by_cases hs : env.send_ok = true <;> simp [tx_step, hq, hs]

theorem tx_step_received (ctx : network_context_t) (env : task_env)
    (dels : List (List Nat)) :
    (tx_step ctx env dels).ctx.stats.messages_received =
      ctx.stats.messages_received := by
  cases hq : ctx.tx_queue with
  | nil => simp [tx_step, hq]
  | cons m rest =>
    by_cases hs : env.send_ok = true
    · simp [tx_step, hq, hs]
    · simp only [tx_step, hq, if_neg hs]
      rw [set_state, close_socket]
      split <;> rfl

theorem tx_step_writes (ctx : network_context_t) (env : task_env)
    (dels : List (List Nat)) (m : network_message_t)
    (rest : List network_message_t) (hq : ctx.tx_queue = m :: rest) :
    (tx_step ctx env dels).writes = [tx_bytes m] := by
  by_cases hs : env.send_ok = true <;> simp [tx_step, hq, hs]

theorem tx_step_inv (ctx : network_context_t) (env : task_env)
    (dels : List (List Nat)) (h : socket_state_inv ctx) :
    socket_state_inv (tx_step ctx env dels).ctx := by
  cases hq : ctx.tx_queue with
  | nil => simpa [tx_step, hq] using h
  | cons m rest =>
    by_cases hs : env.send_ok = true
    · unfold socket_state_inv at *
      simpa [tx_step, hq, hs] using h
    · simp only [tx_step, hq, if_neg hs]
      exact demote_inv _

theorem connect_to_server_inv (ctx : network_context_t) (e : connect_env)
    (h : ctx.state ≠ NETWORK_STATE_SERVER_CONNECTED) :
    socket_state_inv (connect_to_server ctx e).2.1 := by
  unfold connect_to_server
  by_cases hso : e.sock_ok = true
  · by_cases hp : e.pton_ok = true
    · by_cases hc : e.conn_ok = true
      · simp only [hso, hp, hc]
        unfold socket_state_inv set_state
        refine iff_of_true ?_ rfl
        show (e.new_fd : Int) ≥ 0
        exact Int.ofNat_nonneg e.new_fd
      · simp only [hso, hp, hc]
        unfold socket_state_inv
        have hfd := close_socket_fd_neg
          { ctx with sock_fd := (e.new_fd : Int) }
        have hst := close_socket_state
          { ctx with sock_fd := (e.new_fd : Int) }
        refine iff_of_false (by simp; omega) ?_
        show ¬ (close_socket _).state = NETWORK_STATE_SERVER_CONNECTED
        rw [hst]
        exact h
    · simp only [hso, hp]
      unfold socket_state_inv
      have hfd := close_socket_fd_neg
        { ctx with sock_fd := (e.new_fd : Int) }
      have hst := close_socket_state
        { ctx with sock_fd := (e.new_fd : Int) }
      refine iff_of_false (by simp; omega) ?_
      show ¬ (close_socket _).state = NETWORK_STATE_SERVER_CONNECTED
      rw [hst]
      exact h
  · simp only [hso]
    unfold socket_state_inv
    refine iff_of_false ?_ h
    show ¬ (-1 : Int) ≥ 0
    decide

theorem network_task_iter_inv (ctx : network_context_t) (env : task_env)
    (h : socket_state_inv ctx) :
    socket_state_inv (network_task_iter ctx env).ctx := by
  by_cases hs : ctx.state = NETWORK_STATE_SERVER_CONNECTED
  · rcases env with ⟨sel, conn, send_ok⟩
    cases sel with
    | timeout =>
      simp only [network_task_iter, hs]
      simp only [ne_eq, not_true_eq_false, if_false]
      exact tx_step_inv _ _ _ h
    | readable r =>
      cases r with
      | closed =>
        simp only [network_task_iter, hs, ne_eq, not_true_eq_false, if_false]
        exact demote_inv _
      | rerror =>
        simp only [network_task_iter, hs, ne_eq, not_true_eq_false, if_false]
        exact demote_inv _
      | bytes chunk =>
        simp only [network_task_iter, hs, ne_eq, not_true_eq_false, if_false]
        exact tx_step_inv _ _ _ (iff_of_true (h.mpr hs) rfl)
  · by_cases hw : ctx.state = NETWORK_STATE_WIFI_CONNECTED
    · have hinv := connect_to_server_inv ctx env.conn hs
      rcases hc : connect_to_server ctx env.conn with ⟨err, ctx1, ws⟩
      rw [hc] at hinv
      cases err <;> simp [network_task_iter, hs, hw, hc] <;> exact hinv
    · simp [network_task_iter, hs, hw]
      exact h

/-!
## Claim theorems
-/

/-- C6: for every sequence of link-layer disconnect events the handler
initiates at most `WIFI_MAX_RETRY_COUNT = 5` consecutive reconnection
attempts — exactly `min n (5 - retry_count)` attempts over `n` events —
the failure signal is raised precisely when the events outrun the
remaining budget (after which no further attempt is initiated, the
count being exhausted), and a got-IP event resets the retry counter
to 0. -/
theorem wifi_retry_policy :
    (∀ (ctx : network_context_t) (n : Nat),
      (run_disconnects ctx n).2 =
        min n (WIFI_MAX_RETRY_COUNT - ctx.wifi_retry_count)) ∧
    (∀ (ctx : network_context_t) (n : Nat),
      (run_disconnects ctx n).2 ≤ WIFI_MAX_RETRY_COUNT) ∧
    (∀ (ctx : network_context_t) (n : Nat),
      ((run_disconnects ctx n).1.fail_bit = true) ↔
        (ctx.fail_bit = true ∨
          WIFI_MAX_RETRY_COUNT - ctx.wifi_retry_count < n)) ∧
    (∀ ctx : network_context_t,
      ((wifi_event_handler ctx .got_ip).1).wifi_retry_count = 0) := by
  refine ⟨fun ctx n => run_disconnects_attempts n ctx, fun ctx n => ?_,
    fun ctx n => run_disconnects_fail_bit n ctx, fun ctx => rfl⟩
  rw [run_disconnects_attempts]
  exact min_le_right _ _ |>.trans (Nat.sub_le _ _)

/-- C9: `network_start` on a running instance returns Ok, leaves the
context unchanged, spawns no task and does not re-initialize WiFi;
`network_stop` on a stopped instance returns Ok and changes nothing. -/
theorem start_stop_idempotent :
    (∀ (ctx : network_context_t) (w s : Bool), ctx.running = true →
      network_start ctx w s = (NETWORK_OK, ctx, false, false)) ∧
    (∀ ctx : network_context_t, ctx.running = false →
      network_stop ctx = (NETWORK_OK, ctx)) := by
  constructor
  · intro ctx w s h
    simp [network_start, h]
  · intro ctx h
    simp [network_stop, h]

/-- Witness for C9 at concrete contexts. -/
theorem start_stop_idempotent_witness :
    (network_start { network_init_ctx (strBytes "D1") with running := true }
        true true =
      (NETWORK_OK, { network_init_ctx (strBytes "D1") with running := true },
        false, false)) ∧
    (network_stop (network_init_ctx (strBytes "D1")) =
      (NETWORK_OK, network_init_ctx (strBytes "D1"))) :=
  ⟨start_stop_idempotent.1 _ true true rfl,
   start_stop_idempotent.2 _ rfl⟩

/-- C1: `network_send_message` rejects a null, empty or over-long
message with `INVALID_PARAM`; a message of length in `[1, 511]` is
enqueued (Ok) when the queue holds fewer than `NETWORK_QUEUE_SIZE = 10`
items and rejected with `QUEUE_FULL` (queue unchanged, caller not
blocked — the push uses a zero-tick timeout) when the queue is at
capacity; in every case the stats, `send_errors` included, are
untouched. -/
theorem network_send_message_spec :
    (∀ ctx : network_context_t,
      network_send_message none ctx = (NETWORK_ERR_INVALID_PARAM, ctx)) ∧
    (∀ (ctx : network_context_t) (m : List Nat),
      m.length = 0 ∨ NETWORK_MAX_MESSAGE_LEN ≤ m.length →
      network_send_message (some m) ctx = (NETWORK_ERR_INVALID_PARAM, ctx)) ∧
    (∀ (ctx : network_context_t) (m : List Nat),
      1 ≤ m.length → m.length ≤ NETWORK_MAX_MESSAGE_LEN - 1 →
      ctx.tx_queue.length < NETWORK_QUEUE_SIZE →
      network_send_message (some m) ctx =
        (NETWORK_OK, { ctx with tx_queue := ctx.tx_queue ++ [m] })) ∧
    (∀ (ctx : network_context_t) (m : List Nat),
      1 ≤ m.length → m.length ≤ NETWORK_MAX_MESSAGE_LEN - 1 →
      ctx.tx_queue.length = NETWORK_QUEUE_SIZE →
      network_send_message (some m) ctx = (NETWORK_ERR_QUEUE_FULL, ctx)) ∧
    (∀ (msg : Option (List Nat)) (ctx : network_context_t),
      ((network_send_message msg ctx).2).stats = ctx.stats) := by
  refine ⟨fun ctx => rfl, ?_, ?_, ?_, ?_⟩
  · intro ctx m h
    simp only [network_send_message]
    rw [if_pos h]
  · intro ctx m h1 h2 hq
    have hcond : ¬ (m.length = 0 ∨ NETWORK_MAX_MESSAGE_LEN ≤ m.length) := by
      simp only [NETWORK_MAX_MESSAGE_LEN] at *
      omega
    simp only [network_send_message]
    rw [if_neg hcond, if_pos hq]
  · intro ctx m h1 h2 hq
    have hcond : ¬ (m.length = 0 ∨ NETWORK_MAX_MESSAGE_LEN ≤ m.length) := by
      simp only [NETWORK_MAX_MESSAGE_LEN] at *
      omega
    have hq' : ¬ ctx.tx_queue.length < NETWORK_QUEUE_SIZE := by
      simp only [NETWORK_QUEUE_SIZE] at *
      omega
    simp only [network_send_message]
    rw [if_neg hcond, if_neg hq']
  · intro msg ctx
    cases msg with
    | none => rfl
    | some m =>
      simp only [network_send_message]
      split_ifs <;> rfl

/-- Witness for C1: a 2-byte message is enqueued into an empty queue,
the 11th message bounces off a full queue, and an empty, over-long and
null message are rejected. -/
theorem network_send_message_spec_witness :
    (network_send_message (some (strBytes "hi"))
        (network_init_ctx (strBytes "D1")) =
      (NETWORK_OK, { network_init_ctx (strBytes "D1") with
        tx_queue := (network_init_ctx (strBytes "D1")).tx_queue ++
          [strBytes "hi"] })) ∧
    (network_send_message (some (strBytes "hi"))
        { network_init_ctx (strBytes "D1") with
          tx_queue := List.replicate 10 (strBytes "m") } =
      (NETWORK_ERR_QUEUE_FULL,
        { network_init_ctx (strBytes "D1") with
          tx_queue := List.replicate 10 (strBytes "m") })) ∧
    (network_send_message (some []) (network_init_ctx (strBytes "D1")) =
      (NETWORK_ERR_INVALID_PARAM, network_init_ctx (strBytes "D1"))) ∧
    (network_send_message (some (List.replicate 512 97))
        (network_init_ctx (strBytes "D1")) =
      (NETWORK_ERR_INVALID_PARAM, network_init_ctx (strBytes "D1"))) ∧
    (network_send_message none (network_init_ctx (strBytes "D1")) =
      (NETWORK_ERR_INVALID_PARAM, network_init_ctx (strBytes "D1"))) :=
  ⟨network_send_message_spec.2.2.1 _ _ (by decide) (by decide) (by decide),
   network_send_message_spec.2.2.2.1 _ _ (by decide) (by decide) (by decide),
   network_send_message_spec.2.1 _ _ (by decide),
   network_send_message_spec.2.1 _ _
     (Or.inr (by rw [List.length_replicate]; decide)),
   network_send_message_spec.1 _⟩

/-- From `WIFI_CONNECTED` the next iteration always enters the
reconnect branch: it attempts a server connection and sleeps for the
configured interval, whatever the attempt's outcome. -/
theorem iter_reconnects (ctx : network_context_t) (env : task_env)
    (h : ctx.state = NETWORK_STATE_WIFI_CONNECTED) :
    (network_task_iter ctx env).attempted_connect = true ∧
    (network_task_iter ctx env).slept = true := by
  rcases hc : connect_to_server ctx env.conn with ⟨err, ctx1, ws⟩
  cases err <;> simp [network_task_iter, h, hc]

/-- C5: when `recv` reports peer-close (`len == 0`) or an error
(`len < 0`) while `SERVER_CONNECTED`, the iteration closes the socket
and demotes the state to `WIFI_CONNECTED` — not to `DISCONNECTED`, not
to `ERROR` — delivers nothing, writes nothing, leaves stats and queue
alone (the loop `continue`s), and the following iteration attempts the
server reconnection after sleeping the configured interval. -/
theorem recv_close_demotes (ctx : network_context_t) (env env2 : task_env)
    (hs : ctx.state = NETWORK_STATE_SERVER_CONNECTED)
    (hsel : env.sel = .readable .closed ∨ env.sel = .readable .rerror) :
    (network_task_iter ctx env).ctx.state = NETWORK_STATE_WIFI_CONNECTED ∧
    (network_task_iter ctx env).ctx.state ≠ NETWORK_STATE_DISCONNECTED ∧
    (network_task_iter ctx env).ctx.state ≠ NETWORK_STATE_ERROR ∧
    (network_task_iter ctx env).ctx.sock_fd < 0 ∧
    (network_task_iter ctx env).deliveries = [] ∧
    (network_task_iter ctx env).writes = [] ∧
    (network_task_iter ctx env).ctx.stats = ctx.stats ∧
    (network_task_iter ctx env).ctx.tx_queue = ctx.tx_queue ∧
    (network_task_iter (network_task_iter ctx env).ctx env2).attempted_connect
      = true ∧
    (network_task_iter (network_task_iter ctx env).ctx env2).slept = true := by
  have hred : network_task_iter ctx env =
      ⟨set_state (close_socket ctx) NETWORK_STATE_WIFI_CONNECTED,
        [], [], false, false⟩ := by
    rcases hsel with hsel | hsel <;>
      · rcases env with ⟨sel, conn, send_ok⟩
        simp only at hsel
        subst hsel
        simp [network_task_iter, hs]
  rw [hred]
  refine ⟨rfl,
    (by decide :
      NETWORK_STATE_WIFI_CONNECTED ≠ NETWORK_STATE_DISCONNECTED),
    (by decide : NETWORK_STATE_WIFI_CONNECTED ≠ NETWORK_STATE_ERROR),
    close_socket_fd_neg ctx,
    rfl, rfl, close_socket_stats ctx, close_socket_queue ctx, ?_, ?_⟩
  · exact (iter_reconnects _ env2 rfl).1
  · exact (iter_reconnects _ env2 rfl).2

/-- Witness for C5: a concrete session context hit by a peer close. -/
theorem recv_close_demotes_witness :
    (network_task_iter
        { network_init_ctx (strBytes "D1") with
            state := NETWORK_STATE_SERVER_CONNECTED
            sock_fd := 3
            running := true }
        ⟨.readable .closed, ⟨true, 3, true, true⟩, true⟩).ctx.state =
      NETWORK_STATE_WIFI_CONNECTED ∧
    (network_task_iter
        { network_init_ctx (strBytes "D1") with
            state := NETWORK_STATE_SERVER_CONNECTED
            sock_fd := 3
            running := true }
        ⟨.readable .closed, ⟨true, 3, true, true⟩, true⟩).ctx.state ≠
      NETWORK_STATE_DISCONNECTED ∧
    (network_task_iter
        { network_init_ctx (strBytes "D1") with
            state := NETWORK_STATE_SERVER_CONNECTED
            sock_fd := 3
            running := true }
        ⟨.readable .closed, ⟨true, 3, true, true⟩, true⟩).ctx.state ≠
      NETWORK_STATE_ERROR ∧
    (network_task_iter
        { network_init_ctx (strBytes "D1") with
            state := NETWORK_STATE_SERVER_CONNECTED
            sock_fd := 3
            running := true }
        ⟨.readable .closed, ⟨true, 3, true, true⟩, true⟩).ctx.sock_fd < 0 ∧
    (network_task_iter
        { network_init_ctx (strBytes "D1") with
            state := NETWORK_STATE_SERVER_CONNECTED
            sock_fd := 3
            running := true }
        ⟨.readable .closed, ⟨true, 3, true, true⟩, true⟩).deliveries = [] ∧
    (network_task_iter
        { network_init_ctx (strBytes "D1") with
            state := NETWORK_STATE_SERVER_CONNECTED
            sock_fd := 3
            running := true }
        ⟨.readable .closed, ⟨true, 3, true, true⟩, true⟩).writes = [] ∧
    (network_task_iter
        { network_init_ctx (strBytes "D1") with
            state := NETWORK_STATE_SERVER_CONNECTED
            sock_fd := 3
            running := true }
        ⟨.readable .closed, ⟨true, 3, true, true⟩, true⟩).ctx.stats =
      ({ network_init_ctx (strBytes "D1") with
            state := NETWORK_STATE_SERVER_CONNECTED
            sock_fd := 3
            running := true } : network_context_t).stats ∧
    (network_task_iter
        { network_init_ctx (strBytes "D1") with
            state := NETWORK_STATE_SERVER_CONNECTED
            sock_fd := 3
            running := true }
        ⟨.readable .closed, ⟨true, 3, true, true⟩, true⟩).ctx.tx_queue =
      ({ network_init_ctx (strBytes "D1") with
            state := NETWORK_STATE_SERVER_CONNECTED
            sock_fd := 3
            running := true } : network_context_t).tx_queue ∧
    (network_task_iter
        (network_task_iter
          { network_init_ctx (strBytes "D1") with
              state := NETWORK_STATE_SERVER_CONNECTED
              sock_fd := 3
              running := true }
          ⟨.readable .closed, ⟨true, 3, true, true⟩, true⟩).ctx
        ⟨.timeout, ⟨true, 4, true, true⟩, true⟩).attempted_connect = true ∧
    (network_task_iter
        (network_task_iter
          { network_init_ctx (strBytes "D1") with
              state := NETWORK_STATE_SERVER_CONNECTED
              sock_fd := 3
              running := true }
          ⟨.readable .closed, ⟨true, 3, true, true⟩, true⟩).ctx
        ⟨.timeout, ⟨true, 4, true, true⟩, true⟩).slept = true :=
  recv_close_demotes _ _ ⟨.timeout, ⟨true, 4, true, true⟩, true⟩
    rfl (Or.inl rfl)

/-- The state reached by: init, start (WiFi up, task spawned), got-IP
event, one worker iteration whose connection attempt succeeds with
descriptor 3.  At this point the session is up: `SERVER_CONNECTED`
with `sock_fd = 3`. -/
def sessionCtx : network_context_t :=
  (network_task_iter
    ((wifi_event_handler
      ((network_start (network_init_ctx (strBytes "D1")) true true).2.1)
      .got_ip).1)
    ⟨.timeout, ⟨true, 3, true, true⟩, true⟩).ctx

/-- C7 (counterexample): the socket-iff-SessionConnected invariant is
not preserved by every operation.  From the reachable session state, a
WiFi-disconnect event demotes the state to `DISCONNECTED` while the
socket stays open (`sock_fd = 3`), and `network_stop` closes the socket
while leaving the state at `SERVER_CONNECTED`. -/
theorem socket_state_iff_counterexample :
    socket_state_inv sessionCtx ∧
    sessionCtx.state = NETWORK_STATE_SERVER_CONNECTED ∧
    sessionCtx.sock_fd = 3 ∧
    (wifi_event_handler sessionCtx .sta_disconnected).1.sock_fd = 3 ∧
    (wifi_event_handler sessionCtx .sta_disconnected).1.state =
      NETWORK_STATE_DISCONNECTED ∧
    ¬ socket_state_inv (wifi_event_handler sessionCtx .sta_disconnected).1 ∧
    (network_stop sessionCtx).2.sock_fd = -1 ∧
    (network_stop sessionCtx).2.state = NETWORK_STATE_SERVER_CONNECTED ∧
    ¬ socket_state_inv (network_stop sessionCtx).2 := by
  decide

/-- C7 (amended): the invariant "a valid socket exists iff the state is
`SERVER_CONNECTED`" holds initially and is preserved by the worker-loop
iteration (its connect path sets descriptor and state together, its
error paths close and demote together), by `network_send_message` and
by `network_start`; it is *not* preserved by the WiFi event handler or
by `network_stop` (see the counterexample). -/
theorem socket_state_iff_preserved :
    (∀ name : List Nat, socket_state_inv (network_init_ctx name)) ∧
    (∀ (ctx : network_context_t) (env : task_env),
      socket_state_inv ctx → socket_state_inv (network_task_iter ctx env).ctx) ∧
    (∀ (ctx : network_context_t) (msg : Option (List Nat)),
      socket_state_inv ctx →
      socket_state_inv (network_send_message msg ctx).2) ∧
    (∀ (ctx : network_context_t) (w s : Bool),
      socket_state_inv ctx → socket_state_inv (network_start ctx w s).2.1) := by
  refine ⟨?_, network_task_iter_inv, ?_, ?_⟩
  · intro name
    exact iff_of_false
      (by omega : ¬ (-1 : Int) ≥ 0)
      (by decide :
        ¬ NETWORK_STATE_DISCONNECTED = NETWORK_STATE_SERVER_CONNECTED)
  · intro ctx msg h
    cases msg with
    | none => exact h
    | some m =>
      simp only [network_send_message]
      split_ifs <;> exact h
  · intro ctx w s h
    unfold network_start
    split_ifs <;> exact h

/-- Witness for C7's amended theorem at a concrete session context. -/
theorem socket_state_iff_preserved_witness :
    socket_state_inv
      (network_task_iter sessionCtx
        ⟨.readable .closed, ⟨true, 3, true, true⟩, true⟩).ctx ∧
    socket_state_inv
      (network_send_message (some (strBytes "hi")) sessionCtx).2 ∧
    socket_state_inv (network_start sessionCtx true true).2.1 :=
  ⟨socket_state_iff_preserved.2.1 sessionCtx _ (by decide),
   socket_state_iff_preserved.2.2.1 sessionCtx _ (by decide),
   socket_state_iff_preserved.2.2.2 sessionCtx true true (by decide)⟩

set_option maxRecDepth 4000 in
/-- C2 (counterexample): the claim fails at the maximum accepted
length.  A 511-byte payload (`MAX_LEN - 1`) not ending in the
terminator is passed to `send` unchanged — the guard
`length < NETWORK_MAX_MESSAGE_LEN - 1` refuses to append the newline —
so the transmitted bytes do not equal `payload ++ "\n"`. -/
theorem tx_terminator_counterexample :
    (List.replicate 511 97).length = NETWORK_MAX_MESSAGE_LEN - 1 ∧
    (List.replicate 511 97).getLastD 0 ≠ 10 ∧
    tx_bytes (List.replicate 511 97) = List.replicate 511 97 ∧
    tx_bytes (List.replicate 511 97) ≠ List.replicate 511 97 ++ [10] := by
  have hlast : (List.replicate 511 97).getLastD 0 = 97 := by decide
  have hlen : (List.replicate 511 97).length = 511 := List.length_replicate ..
  refine ⟨by rw [hlen]; decide, by rw [hlast]; decide, ?_, ?_⟩
  · unfold tx_bytes
    rw [if_pos (by rw [hlast]; decide), if_neg (by rw [hlen]; decide)]
  · intro h
    have hl := congrArg List.length h
    rw [List.length_append, hlen, List.length_singleton] at hl
    unfold tx_bytes at hl
    rw [if_pos (by rw [hlast]; decide), if_neg (by rw [hlen]; decide),
      hlen] at hl
    omega

/-- C2 (amended): a queued payload not ending in the terminator has
exactly one `"\n"` appended before the socket write — provided its
length is at most `MAX_LEN - 2` (510); a payload already ending in the
terminator is written unchanged (never doubled); a maximum-length
payload (`MAX_LEN - 1` = 511 bytes) without terminator is written
unchanged, the buffer having no room.  The last conjunct grounds
`tx_bytes` in the worker loop: the bytes passed to `send` for the
dequeued head are exactly `tx_bytes` of it. -/
theorem tx_terminator_spec :
    (∀ m : List Nat, m.getLastD 0 ≠ 10 →
      m.length < NETWORK_MAX_MESSAGE_LEN - 1 → tx_bytes m = m ++ [10]) ∧
    (∀ m : List Nat, m.getLastD 0 = 10 → tx_bytes m = m) ∧
    (∀ m : List Nat, m.getLastD 0 ≠ 10 →
      ¬ m.length < NETWORK_MAX_MESSAGE_LEN - 1 → tx_bytes m = m) ∧
    (∀ (ctx : network_context_t) (env : task_env) (m : network_message_t)
        (rest : List network_message_t),
      ctx.state = NETWORK_STATE_SERVER_CONNECTED →
      env.sel = .timeout →
      ctx.tx_queue = m :: rest →
      (network_task_iter ctx env).writes = [tx_bytes m]) := by
  refine ⟨?_, ?_, ?_, ?_⟩
  · intro m h1 h2
    unfold tx_bytes
    rw [if_pos h1, if_pos h2]
  · intro m h1
    unfold tx_bytes
    rw [if_neg (by simpa using h1)]
  · intro m h1 h2
    unfold tx_bytes
    rw [if_pos h1, if_neg h2]
  · intro ctx env m rest hs hsel hq
    rcases env with ⟨sel, conn, send_ok⟩
    simp only at hsel
    subst hsel
    simp only [network_task_iter, hs, ne_eq, not_true_eq_false, if_false]
    exact tx_step_writes _ _ _ _ _ hq

set_option maxRecDepth 4000 in
/-- Witness for C2's amended theorem: "hi" gains a terminator,
"ok\n" is unchanged, the full-length payload is unchanged, and the
worker loop passes `tx_bytes` of the queue head to `send`. -/
theorem tx_terminator_spec_witness :
    tx_bytes (strBytes "hi") = strBytes "hi" ++ [10] ∧
    tx_bytes (strBytes "ok\n") = strBytes "ok\n" ∧
    tx_bytes (List.replicate 511 98) = List.replicate 511 98 ∧
    (network_task_iter
        { network_init_ctx (strBytes "D1") with
            state := NETWORK_STATE_SERVER_CONNECTED
            sock_fd := 3
            running := true
            tx_queue := [strBytes "hi"] }
        ⟨.timeout, ⟨true, 3, true, true⟩, true⟩).writes =
      [tx_bytes (strBytes "hi")] :=
  ⟨tx_terminator_spec.1 _ (by decide) (by decide),
   tx_terminator_spec.2.1 _ (by decide),
   tx_terminator_spec.2.2.1 _
     (by rw [List.getLastD_eq_getLast?]; decide)
     (by rw [List.length_replicate]; decide),
   tx_terminator_spec.2.2.2 _ _ _ _ rfl rfl rfl⟩

/-- C3: on a chunk free of NUL bytes every delimiter found yields one
callback delivery holding exactly the bytes since the previous
delimiter (terminator excluded), empty messages are discarded,
`messages_received` grows by the number of deliveries; the worker
iteration hands the framer's deliveries to the callback and updates the
counter accordingly; and the chunk `"hello\nworld\n"` yields exactly
`"hello"` then `"world"` with the counter up by 2. -/
theorem inbound_framer_spec :
    (∀ chunk : List Nat, 0 ∉ chunk →
      frameChunk chunk = (splitNl [] chunk).filter (fun s => s ≠ [])) ∧
    (∀ (stats : network_stats_t) (chunk : List Nat),
      (rx_scan stats [] chunk).1 = frameChunk chunk) ∧
    (∀ (stats : network_stats_t) (chunk : List Nat),
      (rx_scan stats [] chunk).2.messages_received =
        stats.messages_received + (frameChunk chunk).length) ∧
    (∀ (ctx : network_context_t) (env : task_env) (chunk : List Nat),
      ctx.state = NETWORK_STATE_SERVER_CONNECTED →
      env.sel = .readable (.bytes chunk) →
      (network_task_iter ctx env).deliveries = frameChunk chunk ∧
      (network_task_iter ctx env).ctx.stats.messages_received =
        ctx.stats.messages_received + (frameChunk chunk).length) ∧
    (frameChunk (strBytes "hello\nworld\n") =
      [strBytes "hello", strBytes "world"]) ∧
    (∀ stats : network_stats_t,
      (rx_scan stats [] (strBytes "hello\nworld\n")).2.messages_received =
        stats.messages_received + 2) := by
  have hlen2 : (frameChunk (strBytes "hello\nworld\n")).length = 2 := by
    decide
  refine ⟨fun chunk h => frame_eq_splitNl chunk [] h,
    fun stats chunk => rx_scan_fst stats [] chunk,
    fun stats chunk => rx_scan_received stats [] chunk,
    ?_, by decide, fun stats => ?_⟩
  · intro ctx env chunk hs hsel
    rcases env with ⟨sel, conn, send_ok⟩
    simp only at hsel
    subst hsel
    simp only [network_task_iter, hs, ne_eq, not_true_eq_false, if_false]
    constructor
    · rw [tx_step_deliveries]
      exact rx_scan_fst ctx.stats [] chunk
    · rw [tx_step_received]
      exact rx_scan_received ctx.stats [] chunk
  · rw [rx_scan_received stats [] (strBytes "hello\nworld\n")]
    rw [show frame [] (strBytes "hello\nworld\n") =
        frameChunk (strBytes "hello\nworld\n") from rfl, hlen2]

/-- Witness for C3 at the concrete chunk `"hello\nworld\n"` and a
concrete session context. -/
theorem inbound_framer_spec_witness :
    (frameChunk (strBytes "hello\nworld\n") =
      (splitNl [] (strBytes "hello\nworld\n")).filter (fun s => s ≠ [])) ∧
    ((network_task_iter
        { network_init_ctx (strBytes "D1") with
            state := NETWORK_STATE_SERVER_CONNECTED
            sock_fd := 3
            running := true }
        ⟨.readable (.bytes (strBytes "hello\nworld\n")),
          ⟨true, 3, true, true⟩, true⟩).deliveries =
      frameChunk (strBytes "hello\nworld\n") ∧
    (network_task_iter
        { network_init_ctx (strBytes "D1") with
            state := NETWORK_STATE_SERVER_CONNECTED
            sock_fd := 3
            running := true }
        ⟨.readable (.bytes (strBytes "hello\nworld\n")),
          ⟨true, 3, true, true⟩, true⟩).ctx.stats.messages_received =
      ({ network_init_ctx (strBytes "D1") with
            state := NETWORK_STATE_SERVER_CONNECTED
            sock_fd := 3
            running := true } : network_context_t).stats.messages_received +
        (frameChunk (strBytes "hello\nworld\n")).length) :=
  ⟨inbound_framer_spec.1 _ (by decide),
   inbound_framer_spec.2.2.2.1 _
     ⟨.readable (.bytes (strBytes "hello\nworld\n")),
       ⟨true, 3, true, true⟩, true⟩ _ rfl rfl⟩

/-- C4: evaluation at the failing input.  The message `"hello"` arrives
split as `"hel"` then `"lo\n"`.  The framer, which keeps no state
across reads (`rx_buffer` is refilled each iteration and the bytes
after the last delimiter are dropped), delivers nothing for the first
chunk and then a single truncated message `"lo"` — not `"hello"` — for
the second; across the two worker iterations the callback receives
`["lo"]`. -/
theorem split_message_lost :
    frameChunk (strBytes "hel") = [] ∧
    frameChunk (strBytes "lo\n") = [strBytes "lo"] ∧
    frameChunk (strBytes "hel") ++ frameChunk (strBytes "lo\n") ≠
      [strBytes "hello"] ∧
    (network_task_iter
        { network_init_ctx (strBytes "D1") with
            state := NETWORK_STATE_SERVER_CONNECTED
            sock_fd := 3
            running := true }
        ⟨.readable (.bytes (strBytes "hel")),
          ⟨true, 3, true, true⟩, true⟩).deliveries = [] ∧
    (network_task_iter
        (network_task_iter
          { network_init_ctx (strBytes "D1") with
              state := NETWORK_STATE_SERVER_CONNECTED
              sock_fd := 3
              running := true }
          ⟨.readable (.bytes (strBytes "hel")),
            ⟨true, 3, true, true⟩, true⟩).ctx
        ⟨.readable (.bytes (strBytes "lo\n")),
          ⟨true, 3, true, true⟩, true⟩).deliveries = [strBytes "lo"] := by
  decide

/-- C8 (counterexample): the handshake is not
`"DEVICE:" ++ name ++ "\n"` for *every* device name.  For a 120-byte
name the line `snprintf` must format is 128 bytes, one more than the
127 the `hello_msg[128]` buffer can hold beside the NUL, so the
transmitted handshake is truncated (the trailing `"\n"` is lost). -/
theorem handshake_counterexample :
    (connect_to_server
        { network_init_ctx (List.replicate 120 97) with
            state := NETWORK_STATE_WIFI_CONNECTED
            running := true }
        ⟨true, 3, true, true⟩).1 = NETWORK_OK ∧
    (connect_to_server
        { network_init_ctx (List.replicate 120 97) with
            state := NETWORK_STATE_WIFI_CONNECTED
            running := true }
        ⟨true, 3, true, true⟩).2.1.state = NETWORK_STATE_SERVER_CONNECTED ∧
    (connect_to_server
        { network_init_ctx (List.replicate 120 97) with
            state := NETWORK_STATE_WIFI_CONNECTED
            running := true }
        ⟨true, 3, true, true⟩).2.2 ≠
      [deviceTag ++ List.replicate 120 97 ++ [10]] := by
  decide

/-- C8 (amended): upon every successful `connect`, and for every
NUL-free device name short enough for the 128-byte handshake buffer
(length ≤ 119), the core transmits exactly one handshake line whose
bytes are `"DEVICE:" ++ name ++ "\n"`, and the state becomes
`SERVER_CONNECTED`. -/
theorem handshake_spec :
    ∀ (ctx : network_context_t) (e : connect_env),
      e.sock_ok = true → e.pton_ok = true → e.conn_ok = true →
      0 ∉ ctx.device_name → ctx.device_name.length ≤ 119 →
      connect_to_server ctx e =
        (NETWORK_OK,
          set_state { ctx with sock_fd := (e.new_fd : Int) }
            NETWORK_STATE_SERVER_CONNECTED,
          [deviceTag ++ ctx.device_name ++ [10]]) := by
  intro ctx e hso hp hc h0 hlen
  have hfull : hello_msg ctx.device_name =
      deviceTag ++ ctx.device_name ++ [10] := by
    unfold hello_msg
    apply List.take_of_length_le
    simp only [List.length_append]
    have : deviceTag.length = 7 := by decide
    simp [this]
    omega
  have h0full : (0 : Nat) ∉ deviceTag ++ ctx.device_name ++ [10] := by
    intro hmem
    rcases List.mem_append.1 hmem with hmem1 | hmem2
    · rcases List.mem_append.1 hmem1 with hmem3 | hmem4
      · exact absurd hmem3 (by decide)
      · exact h0 hmem4
    · simp at hmem2
  simp only [connect_to_server, hso, hp, hc, not_true_eq_false,
    if_false, ite_false]
  rw [hfull, takeWhile_of_zero_free _ h0full]

/-- Witness for C8's amended theorem with device name `"D1"`. -/
theorem handshake_spec_witness :
    connect_to_server
        { network_init_ctx (strBytes "D1") with
            state := NETWORK_STATE_WIFI_CONNECTED
            running := true }
        ⟨true, 3, true, true⟩ =
      (NETWORK_OK,
        set_state
          { ({ network_init_ctx (strBytes "D1") with
                state := NETWORK_STATE_WIFI_CONNECTED
                running := true } : network_context_t) with
              sock_fd := ((3 : Nat) : Int) }
          NETWORK_STATE_SERVER_CONNECTED,
        [deviceTag ++ strBytes "D1" ++ [10]]) :=
  handshake_spec _ ⟨true, 3, true, true⟩ rfl rfl rfl
    (by decide) (by decide)

/-- C10: the framer never scans past a NUL byte.  Whatever follows the
first NUL of a chunk is invisible: the deliveries for
`pre ++ 0 :: post` are exactly those for `pre`, every
delimiter-terminated message lying after the NUL is silently dropped
and `messages_received` does not count it.  Concretely,
`"ab\n" ++ NUL ++ "cd\n"` delivers only `"ab"`. -/
theorem nul_byte_truncates_scan :
    (∀ pre post acc : List Nat, 0 ∉ pre →
      frame acc (pre ++ 0 :: post) = frame acc pre) ∧
    (∀ pre post : List Nat, 0 ∉ pre →
      frameChunk (pre ++ 0 :: post) = frameChunk pre) ∧
    (∀ (stats : network_stats_t) (pre post : List Nat), 0 ∉ pre →
      (rx_scan stats [] (pre ++ 0 :: post)).2.messages_received =
        stats.messages_received + (frameChunk pre).length) ∧
    (frameChunk (strBytes "ab\n" ++ 0 :: strBytes "cd\n") =
      [strBytes "ab"]) := by
  refine ⟨fun pre post acc h => frame_append_nul pre post acc h,
    fun pre post h => frame_append_nul pre post [] h,
    fun stats pre post h => ?_, by decide⟩
  rw [rx_scan_received, frame_append_nul pre post [] h]
  rfl

/-- Witness for C10 at `pre = "ab\n"`, `post = "cd\n"`. -/
theorem nul_byte_truncates_scan_witness :
    (frame [] (strBytes "ab\n" ++ 0 :: strBytes "cd\n") =
      frame [] (strBytes "ab\n")) ∧
    (frameChunk (strBytes "ab\n" ++ 0 :: strBytes "cd\n") =
      frameChunk (strBytes "ab\n")) ∧
    ((rx_scan ⟨0, 0, 0, 0⟩ []
        (strBytes "ab\n" ++ 0 :: strBytes "cd\n")).2.messages_received =
      (⟨0, 0, 0, 0⟩ : network_stats_t).messages_received +
        (frameChunk (strBytes "ab\n")).length) :=
  ⟨nul_byte_truncates_scan.1 _ _ [] (by decide),
   nul_byte_truncates_scan.2.1 _ _ (by decide),
   nul_byte_truncates_scan.2.2.1 ⟨0, 0, 0, 0⟩ _ _ (by decide)⟩
